import Mathlib

/-!
Verification development for the BridgeGADdrafter repository.

The TypeScript sources are shallowly embedded over exact rational
arithmetic (JS double arithmetic on the inputs that the claims touch is
plain field arithmetic, floor, truncation and rounding; we model it with
pure functions on the rationals).

Embedded units:
- client/src/lib/dwg-generator.ts, first module variant (class DWGGenerator,
  generateDWG, generateBridgeDWG, addCrossSection): namespace DWG1
- client/src/lib/dwg-generator.ts, second module variant (drawDimensions):
  namespace DWG2
- unnamed/part_005 (class BridgeCalculator): namespace Calc
- api/bridge/parse.ts (the serverless parse handler) and the range check of
  the express route in unnamed/part_006: namespace Parse
-/

namespace BridgeGAD

/-- ParameterSet of the repository (interface BridgeParameters in
unnamed/part_005 and client/src/lib/types.ts): the ten scalar inputs.
All fields are TS numbers; `noch` is numeric as well. -/
structure BridgeParameters where
  scale1 : ℚ
  scale2 : ℚ
  skew : ℚ
  datum : ℚ
  toprl : ℚ
  left : ℚ
  right : ℚ
  xincr : ℚ
  yincr : ℚ
  noch : ℚ
deriving DecidableEq, Repr

/-- JS ties-to-larger rounding: `Math.round(x)` and the integer selected by
`Number.prototype.toFixed` both pick the integer n closest to x, and the
larger candidate on a tie, which is exactly the floor of x + 1/2. -/
def jsRound (q : ℚ) : ℤ := ⌊q + 1/2⌋

/-- Truncation toward zero, the integer part used by the JS `%` operator. -/
def ratTrunc (q : ℚ) : ℤ := if 0 ≤ q then ⌊q⌋ else ⌈q⌉

/-- The JS remainder operator `x % y`: x minus y times the truncated
quotient (sign of the dividend). For y = 0 JS yields NaN; rational
division by zero gives 0 here, so `jsRem x 0 = x`; no claim touches
that case. -/
def jsRem (x y : ℚ) : ℚ := x - y * (ratTrunc (x / y) : ℚ)

/-- Left-pad a string of digits with zeros up to length n
(`String.prototype.padStart(n, "0")`). -/
def padZero (n : ℕ) (s : String) : String :=
  if s.length ≥ n then s else String.mk (List.replicate (n - s.length) '0') ++ s

/-- Decimal rendering of the scaled integer selected by toFixed: n is the
value in units of 10^(-d). -/
def renderFixed (d : ℕ) (n : ℤ) : String :=
  let sign := if n < 0 then "-" else ""
  let a := n.natAbs
  if d = 0 then
    sign ++ toString a
  else
    sign ++ toString (a / 10 ^ d) ++ "." ++ padZero d (toString (a % 10 ^ d))

/-- `Number.prototype.toFixed(d)`: render q with d decimal digits, rounding
ties toward the larger candidate (ECMA picks the larger n). The rendering
of an IEEE negative zero as "-0.00" is not modelled; no claim depends on
it. -/
def toFixedN (d : ℕ) (q : ℚ) : String :=
  renderFixed d (jsRound (q * (10 : ℚ) ^ d))

/-- `Number.prototype.toString()` for the numeric labels in drawGrid.
Integral values print as in JS; non-integral rationals are rendered as
num/den (JS prints a decimal expansion; no claim inspects those labels). -/
def jsNumToString (q : ℚ) : String :=
  if q.den = 1 then toString q.num else toString q.num ++ "/" ++ toString q.den

/-- Chainage display shared by both dwg-generator variants and part_005
(formatChainage): km part, "+", metres padded to three digits. -/
def formatChainage (chainage : ℚ) : String :=
  let km : ℤ := ⌊chainage / 1000⌋
  let m : ℚ := jsRem chainage 1000
  toString km ++ "+" ++ padZero 3 (toFixedN 0 m)

/-!
Embedding of the first DWGGenerator variant in
client/src/lib/dwg-generator.ts (lines 1 to 423).
-/

namespace DWG1

/-- DWGExportOptions: only the fields the generator reads are kept
(paperSize, orientation and the title-block and dimension flags are never
consulted by this variant). -/
structure DWGExportOptions where
  scale : ℚ
  includeGrid : Bool
deriving DecidableEq, Repr

/-- Mutable state of class DWGGenerator: the parameter record plus the
field initializers of lines 13 to 21. -/
structure DWGGenerator where
  parameters : BridgeParameters
  scale : ℚ
  skewAngle : ℚ
  skewSin : ℚ
  skewCos : ℚ
  hhs : ℚ
  vvs : ℚ
deriving DecidableEq, Repr

/-- Constructor plus the assignment `this.scale = options.scale` performed
at the top of generateDWG. The class initializes skewAngle to 0, skewSin
to 0, skewCos to 1, hhs and vvs to 1, and no method ever reassigns them.
initializeParameters only merges defaults into missing fields; our
parameter records are total, so it is the identity here. -/
def mkDWGGenerator (params : BridgeParameters) (scale : ℚ) : DWGGenerator :=
  { parameters := params, scale := scale, skewAngle := 0, skewSin := 0,
    skewCos := 1, hhs := 1, vvs := 1 }

/-- hpos (line 44): (x − left) · scale · hhs. -/
def hpos (g : DWGGenerator) (x : ℚ) : ℚ :=
  (x - g.parameters.left) * g.scale * g.hhs

/-- vpos (line 48): (y − datum) · scale · vvs. -/
def vpos (g : DWGGenerator) (y : ℚ) : ℚ :=
  (y - g.parameters.datum) * g.scale * g.vvs

/-- applySkew (lines 53 to 60): fast path when the skewAngle field is 0,
otherwise rotate by the stored sine and cosine before hpos/vpos. -/
def applySkew (g : DWGGenerator) (x y : ℚ) : ℚ × ℚ :=
  if g.skewAngle = 0 then (hpos g x, vpos g y)
  else
    (hpos g (x * g.skewCos - y * g.skewSin),
     vpos g (x * g.skewSin + y * g.skewCos))

/-- drawLine (lines 63 to 83): one LINE entity as fourteen DXF tokens. -/
def drawLine (g : DWGGenerator) (x1 y1 x2 y2 : ℚ) (layer : String)
    (color : ℤ) (lineweight : ℚ) : List String :=
  let p1 := applySkew g x1 y1
  let p2 := applySkew g x2 y2
  ["0", "LINE",
   "8", layer,
   "62", toString color,
   "370", toString (jsRound (lineweight * 100)),
   "10", toFixedN 2 p1.1,
   "20", toFixedN 2 p1.2,
   "11", toFixedN 2 p2.1,
   "21", toFixedN 2 p2.2]

/-- drawText (lines 86 to 107): one TEXT entity as sixteen DXF tokens;
the rotation is the requested angle plus the skew parameter. -/
def drawText (g : DWGGenerator) (x y : ℚ) (text : String) (height : ℚ)
    (layer : String) (color : ℤ) (angle : ℚ) : List String :=
  let pos := applySkew g x y
  let rotation := angle + g.parameters.skew
  ["0", "TEXT",
   "8", layer,
   "62", toString color,
   "10", toFixedN 2 pos.1,
   "20", toFixedN 2 pos.2,
   "40", toFixedN 2 height,
   "1", text,
   "50", toFixedN 2 rotation]

/-- Number of iterations of the JS counting loop
`for (v = start; v <= bound; v += step)`. For 0 < step the loop runs
⌊(bound − start)/step⌋ + 1 times when start ≤ bound and zero times
otherwise; for step ≤ 0 with start ≤ bound the JS loop does not terminate
(unreachable behind validation, modelled as zero iterations). -/
def stepCount (start bound step : ℚ) : ℕ :=
  if 0 < step ∧ start ≤ bound then (⌊(bound - start) / step⌋ + 1).toNat else 0

/-- The values visited by the counting loop. -/
def stepValues (start bound step : ℚ) : List ℚ :=
  (List.range (stepCount start bound step)).map (fun (i : ℕ) => start + step * (i : ℚ))

/-- drawGrid (lines 128 to 146): vertical lines every xincr from
ceil(left/xincr)·xincr up to right, labelled strictly inside the range;
horizontal lines every yincr from ceil(datum/yincr)·yincr up to toprl,
labelled strictly above datum. -/
def drawGrid (g : DWGGenerator) : List String :=
  let p := g.parameters
  let xs := stepValues ((⌈p.left / p.xincr⌉ : ℚ) * p.xincr) p.right p.xincr
  let ys := stepValues ((⌈p.datum / p.yincr⌉ : ℚ) * p.yincr) p.toprl p.yincr
  (xs.flatMap (fun x =>
    drawLine g x (p.datum - 10) x (p.toprl + 5) "GRID" 8 0.15 ++
    (if p.left < x ∧ x < p.right then
      drawText g x (p.datum - 2) (jsNumToString x) 1.8 "DIMENSIONS" 7 0
     else []))) ++
  (ys.flatMap (fun y =>
    drawLine g (p.left - 5) y (p.right + 5) y "GRID" 8 0.15 ++
    (if p.datum < y then
      drawText g (p.left - 2) y (jsNumToString y) 1.8 "DIMENSIONS" 7 90
     else [])))

/-- drawPier (lines 182 to 222): cap rectangle, stem, foundation rectangle
and the two width labels (the template literals of the constant widths
render as the literal strings below). -/
def drawPier (g : DWGGenerator) (chainage deckLevel datum : ℚ) : List String :=
  let capLeft := chainage - 2.2 / 2
  let capRight := chainage + 2.2 / 2
  let capTop := deckLevel - 0.2
  let capBottom := capTop - 0.5
  let pierLeft := chainage - 1.8 / 2
  let pierRight := chainage + 1.8 / 2
  let foundationLevel := datum - 3
  let foundLeft := chainage - 3.5 / 2
  let foundRight := chainage + 3.5 / 2
  let foundTop := foundationLevel
  let foundBottom := foundationLevel - 2.5
  drawLine g capLeft capTop capRight capTop "PIER_CAP" 3 0.7 ++
  drawLine g capLeft capBottom capRight capBottom "PIER_CAP" 3 0.7 ++
  drawLine g capLeft capTop capLeft capBottom "PIER_CAP" 3 0.7 ++
  drawLine g capRight capTop capRight capBottom "PIER_CAP" 3 0.7 ++
  drawLine g pierLeft capBottom pierLeft foundationLevel "PIER_STEM" 4 0.6 ++
  drawLine g pierRight capBottom pierRight foundationLevel "PIER_STEM" 4 0.6 ++
  drawLine g foundLeft foundTop foundRight foundTop "FOUNDATION" 6 0.8 ++
  drawLine g foundLeft foundBottom foundRight foundBottom "FOUNDATION" 6 0.8 ++
  drawLine g foundLeft foundTop foundLeft foundBottom "FOUNDATION" 6 0.8 ++
  drawLine g foundRight foundTop foundRight foundBottom "FOUNDATION" 6 0.8 ++
  drawText g (chainage + 1) ((capTop + capBottom) / 2) "2.2m" 1.5 "DIMENSIONS" 7 0 ++
  drawText g (chainage + 2) ((foundTop + foundBottom) / 2) "3.5m" 1.2 "DIMENSIONS" 7 0

/-- drawAbutment (lines 225 to 241); isLeft selects the LEFT side. -/
def drawAbutment (g : DWGGenerator) (chainage deckLevel datum : ℚ)
    (isLeft : Bool) : List String :=
  let abutmentHeight := deckLevel - datum
  let direction : ℚ := if isLeft then -1 else 1
  let abutLeft := if isLeft then chainage - 2.5 else chainage
  let abutRight := if isLeft then chainage else chainage + 2.5
  drawLine g abutLeft datum abutRight datum "ABUTMENT" 5 0.7 ++
  drawLine g abutLeft deckLevel abutRight deckLevel "ABUTMENT" 5 0.7 ++
  drawLine g abutLeft datum abutLeft deckLevel "ABUTMENT" 5 0.7 ++
  drawLine g abutRight datum abutRight deckLevel "ABUTMENT" 5 0.7 ++
  drawText g (chainage + direction * 1.5) ((datum + deckLevel) / 2)
    (toFixedN 1 abutmentHeight ++ "m") 1.2 "DIMENSIONS" 7 90

/-- addSpanDimensions (lines 244 to 257): overall label then one label per
span. -/
def addSpanDimensions (g : DWGGenerator) (left right level : ℚ)
    (nspan : ℕ) (spanLength : ℚ) : List String :=
  drawText g ((left + right) / 2) level
    ("Total: " ++ toFixedN 0 (right - left) ++ "m") 2.0 "DIMENSIONS" 1 0 ++
  ((List.range nspan).flatMap (fun (i : ℕ) =>
    let spanStart := left + spanLength * (i : ℚ)
    let spanEnd := left + spanLength * ((i : ℚ) + 1)
    drawText g ((spanStart + spanEnd) / 2) (level - 1)
      ("Span " ++ toString (i + 1) ++ ": " ++ toFixedN 0 spanLength ++ "m")
      1.5 "DIMENSIONS" 7 0))

/-- nspan of drawBridge (line 152): max(1, ⌊bridgeLength / 30⌋). -/
def nspanZ (p : BridgeParameters) : ℤ := max 1 ⌊(p.right - p.left) / 30⌋

/-- spanLength of drawBridge (line 153). -/
def spanLength (p : BridgeParameters) : ℚ :=
  (p.right - p.left) / ((nspanZ p : ℤ) : ℚ)

/-- deckLevel of drawBridge (line 156): toprl − 1.5. -/
def deckLevel (p : BridgeParameters) : ℚ := p.toprl - 1.5

/-- The pier chainages visited by the loop of drawBridge (lines 164 to
167): left + spanLength·i for i = 1 .. nspan − 1. -/
def drawBridgePierChainages (p : BridgeParameters) : List ℚ :=
  (List.range ((nspanZ p).toNat - 1)).map
    (fun (i : ℕ) => p.left + spanLength p * ((i : ℚ) + 1))

/-- drawBridge (lines 149 to 179): deck rectangle, piers, abutments,
parapet, span dimensions. -/
def drawBridge (g : DWGGenerator) : List String :=
  let p := g.parameters
  let dl := deckLevel p
  drawLine g p.left dl p.right dl "BRIDGE_DECK" 1 0.8 ++
  drawLine g p.left (dl - 0.8) p.right (dl - 0.8) "BRIDGE_DECK" 1 0.8 ++
  drawLine g p.left dl p.left (dl - 0.8) "BRIDGE_DECK" 1 0.8 ++
  drawLine g p.right dl p.right (dl - 0.8) "BRIDGE_DECK" 1 0.8 ++
  ((drawBridgePierChainages p).flatMap
    (fun ch => drawPier g ch dl p.datum)) ++
  drawAbutment g p.left dl p.datum true ++
  drawAbutment g p.right dl p.datum false ++
  drawLine g p.left (dl + 1.2) p.right (dl + 1.2) "PARAPET" 2 0.5 ++
  addSpanDimensions g p.left p.right (dl + 3) (nspanZ p).toNat (spanLength p)

/-- The marker block of addCrossSection for one vertex (lines 276 to 297):
when the remainder of the chainage offset against xincr exceeds 0.01 in
absolute value, a chainage label and a level label are emitted; otherwise
nothing. -/
def csMarkerCmds (g : DWGGenerator) (pt : ℚ × ℚ) : List String :=
  let chainageRemainder := jsRem (pt.1 - g.parameters.left) g.parameters.xincr
  if 1 / 100 < |chainageRemainder| then
    drawText g (pt.1 + 0.5) (pt.2 - 1) (formatChainage pt.1)
      1.8 "DIMENSIONS" 7 90 ++
    drawText g (pt.1 + 0.5) (pt.2 - 2) (toFixedN 3 pt.2)
      1.8 "DIMENSIONS" 7 90
  else []

/-- addCrossSection (lines 260 to 298): nothing for fewer than two points,
otherwise the profile segments between consecutive vertices followed by
the per-vertex marker blocks. -/
def addCrossSection (g : DWGGenerator) (csData : List (ℚ × ℚ)) : List String :=
  if csData.length < 2 then []
  else
    ((csData.zip csData.tail).flatMap (fun pc =>
      drawLine g pc.1.1 pc.1.2 pc.2.1 pc.2.2 "CROSS_SECTION" 6 0.6)) ++
    (csData.flatMap (fun pt => csMarkerCmds g pt))

/-- generateDWG (lines 110 to 125): section start, optional grid, bridge,
terminator. -/
def generateDWG (params : BridgeParameters) (options : DWGExportOptions) :
    List String :=
  let g := mkDWGGenerator params options.scale
  ["0", "SECTION", "2", "ENTITIES"] ++
  (if options.includeGrid then drawGrid g else []) ++
  drawBridge g ++
  ["0", "ENDSEC", "0", "EOF"]

/-- generateBridgeDWG (lines 310 to 351): run generateDWG, then, when
cross-section data is supplied, push the overlay commands onto the already
terminated command list. -/
def generateBridgeDWG (params : BridgeParameters) (options : DWGExportOptions)
    (csData : List (ℚ × ℚ)) : List String :=
  let result := generateDWG params options
  if 0 < csData.length then
    result ++ addCrossSection (mkDWGGenerator params options.scale) csData
  else result

end DWG1

/-!
Embedding of the second DWGGenerator variant in
client/src/lib/dwg-generator.ts (lines 424 onward). Its coordinate
primitives (hpos, vpos, applySkew, drawLine, drawText, lines 471 to 535)
duplicate the first variant verbatim, so the DWG1 definitions are reused;
only drawDimensions (lines 762 to 812) is new here.
-/

namespace DWG2

/-- pierCount of drawDimensions (line 791): max(0, ⌊bridgeLength / 30⌋ − 1)
with a nominal span of 30. -/
def pierCountZ (p : BridgeParameters) : ℤ :=
  max 0 (⌊(p.right - p.left) / 30⌋ - 1)

/-- spacing of drawDimensions (line 793): bridgeLength / (pierCount + 1). -/
def spacing (p : BridgeParameters) : ℚ :=
  (p.right - p.left) / ((pierCountZ p : ℤ) + 1 : ℤ)

/-- The tick positions visited by the loop of drawDimensions (lines 795 to
805): left + spacing·i for i = 1 .. pierCount. -/
def dimPierXs (p : BridgeParameters) : List ℚ :=
  (List.range (pierCountZ p).toNat).map
    (fun (i : ℕ) => p.left + spacing p * ((i : ℚ) + 1))

/-- The overall-length label of drawDimensions (line 775):
`L = ` ++ bridgeLength.toFixed(0) ++ ` m`. -/
def overallLengthLabel (p : BridgeParameters) : String :=
  "L = " ++ toFixedN 0 (p.right - p.left) ++ " m"

/-- drawDimensions (lines 762 to 812). The running variable prev of the
span loop equals left + spacing·i after i iterations, which the embedding
uses as the closed form. -/
def drawDimensions (g : DWG1.DWGGenerator) : List String :=
  let p := g.parameters
  let deckY := p.toprl
  DWG1.drawLine g p.left (deckY + 2.0) p.right (deckY + 2.0) "DIMENSIONS" 3 0.15 ++
  DWG1.drawText g ((p.left + p.right) / 2) (deckY + 2.0 + 0.5)
    (overallLengthLabel p) 2.5 "DIMENSIONS" 3 0 ++
  DWG1.drawLine g (p.left - 1.0) p.datum (p.left - 1.0) (deckY + 1.2) "DIMENSIONS" 3 0.15 ++
  DWG1.drawText g (p.left - 0.8) ((p.datum + deckY) / 2)
    (toFixedN 2 (deckY - p.datum) ++ " m") 2.0 "DIMENSIONS" 3 90 ++
  DWG1.drawText g (p.left - 1.2) ((p.datum + deckY + 1.2) / 2)
    ("H " ++ toFixedN 2 (deckY + 1.2 - p.datum) ++ " m") 2.0 "DIMENSIONS" 3 90 ++
  (if 0 < pierCountZ p then
    ((List.range (pierCountZ p).toNat).flatMap (fun (i : ℕ) =>
      let prev := p.left + spacing p * (i : ℚ)
      let x := p.left + spacing p * ((i : ℚ) + 1)
      DWG1.drawLine g x (deckY - 0.5) x (deckY + 0.5) "DIMENSIONS" 3 0.15 ++
      DWG1.drawText g ((prev + x) / 2) (deckY + 2.0 - 0.5)
        (toFixedN 0 (x - prev) ++ " m") 2.0 "DIMENSIONS" 3 0)) ++
    (let prev := p.left + spacing p * ((pierCountZ p).toNat : ℚ)
     DWG1.drawText g ((prev + p.right) / 2) (deckY + 2.0 - 0.5)
       (toFixedN 0 (p.right - prev) ++ " m") 2.0 "DIMENSIONS" 3 0)
  else [])

end DWG2

/-!
Embedding of class BridgeCalculator in unnamed/part_005.
-/

namespace Calc

/-- hpos of BridgeCalculator (lines 60 to 64): 2 drawing units per metre
from the left chainage. -/
def hpos (p : BridgeParameters) (a : ℚ) : ℚ := (a - p.left) * 2

/-- vpos of BridgeCalculator (lines 53 to 57): 5 drawing units per metre
above datum. -/
def vpos (p : BridgeParameters) (a : ℚ) : ℚ := (a - p.datum) * 5

/-- Deck level of generateBridgeElevation (line 157): toprl − 1.5. -/
def deckLevel (p : BridgeParameters) : ℚ := p.toprl - 1.5

/-- Foundation level (line 158): datum − 3.0. -/
def foundationLevel (p : BridgeParameters) : ℚ := p.datum - 3.0

/-- Bearing level (line 159): deck level − 0.5. -/
def bearingLevel (p : BridgeParameters) : ℚ := deckLevel p - 0.5

/-- pierCount of generateBridgeElevation (line 180):
max(0, ⌊bridgeLength / 30⌋ − 1) with a typical span of 30. -/
def pierCountZ (p : BridgeParameters) : ℤ :=
  max 0 (⌊(p.right - p.left) / 30⌋ - 1)

/-- actualSpacing of generateBridgeElevation (line 184):
bridgeLength / (pierCount + 1). -/
def actualSpacing (p : BridgeParameters) : ℚ :=
  (p.right - p.left) / ((pierCountZ p : ℤ) + 1 : ℤ)

/-- One pier record of generateBridgeElevation. -/
structure Pier where
  points : List (ℚ × ℚ)
  width : ℚ
  height : ℚ
  chainage : ℚ
deriving DecidableEq, Repr

/-- The pier records produced by the loop of generateBridgeElevation
(lines 183 to 203). The source guards the loop by pierCount > 0, which is
equivalent to mapping over a range of length pierCount. -/
def elevationPiers (p : BridgeParameters) : List Pier :=
  (List.range (pierCountZ p).toNat).map (fun (i : ℕ) =>
    let pierChainage := p.left + actualSpacing p * ((i : ℚ) + 1)
    { points :=
        [(hpos p (pierChainage - 1.8 / 2), vpos p (foundationLevel p)),
         (hpos p (pierChainage + 1.8 / 2), vpos p (foundationLevel p)),
         (hpos p (pierChainage + 1.8 / 2), vpos p (bearingLevel p)),
         (hpos p (pierChainage - 1.8 / 2), vpos p (bearingLevel p))],
      width := 1.8,
      height := bearingLevel p - foundationLevel p,
      chainage := pierChainage })

/-- One plan-view pier record of generateBridgePlan. -/
structure PlanPier where
  points : List (ℚ × ℚ)
  chainage : ℚ
deriving DecidableEq, Repr

/-- The plan-view pier records of generateBridgePlan (lines 996 to 1014):
one per elevation pier, reusing its first two point abscissas and its
chainage, with a pier length of 8 across the width. -/
def planPiers (p : BridgeParameters) : List PlanPier :=
  (elevationPiers p).map (fun pier =>
    { points :=
        [((pier.points.getD 0 (0, 0)).1, vpos p (p.datum + 8.0 / 2)),
         ((pier.points.getD 1 (0, 0)).1, vpos p (p.datum + 8.0 / 2)),
         ((pier.points.getD 1 (0, 0)).1, vpos p (p.datum - 8.0 / 2)),
         ((pier.points.getD 0 (0, 0)).1, vpos p (p.datum - 8.0 / 2))],
      chainage := pier.chainage })

/-- One chainage/level marker of generateCrossSection. -/
structure CSMarker where
  position : ℚ × ℚ
  chainage : String
  level : String
deriving DecidableEq, Repr

/-- The marker list generateCrossSection produces for one vertex (lines
487 to 506): a single marker carrying both the chainage string and the
level string when the remainder of the chainage offset against xincr
exceeds 0.01 in absolute value, nothing otherwise. -/
def csMarkers005 (p : BridgeParameters) (pt : ℚ × ℚ) : List CSMarker :=
  let x := hpos p pt.1
  let y := vpos p pt.2
  if 1 / 100 < |jsRem (pt.1 - p.left) p.xincr| then
    [{ position := (x + 5, y - 10),
       chainage := formatChainage pt.1,
       level := toFixedN 3 pt.2 }]
  else []

/-- The projected profile points of generateCrossSection (lines 487 to
491). -/
def crossSectionPoints (p : BridgeParameters) (csData : List (ℚ × ℚ)) :
    List (ℚ × ℚ) :=
  csData.map (fun pt => (hpos p pt.1, vpos p pt.2))

/-- All markers of generateCrossSection. -/
def crossSectionMarkers (p : BridgeParameters) (csData : List (ℚ × ℚ)) :
    List CSMarker :=
  csData.flatMap (csMarkers005 p)

end Calc

/-!
Embedding of the parse endpoint api/bridge/parse.ts and of the chainage
range check of the express route in unnamed/part_006. String-to-number
lexing (parseFloat / parseInt with their NaN checks) is out of scope: the
model receives the already parsed numeric values of the non-blank lines;
noch is an integer because parseInt either throws or yields one.
-/

namespace Parse

/-- The ten parameters the handler reads from the first ten lines. -/
structure ParsedParameters where
  scale1 : ℚ
  scale2 : ℚ
  skew : ℚ
  datum : ℚ
  toprl : ℚ
  left : ℚ
  right : ℚ
  xincr : ℚ
  yincr : ℚ
  noch : ℤ
deriving DecidableEq, Repr

/-- A lexed input: the ten parameter values and the (chainage, level)
pairs formed from the remaining lines two at a time (a trailing odd line
is dropped by the loop bound i + 1 < lines.length). -/
structure RawInput where
  params : ParsedParameters
  pairs : List (ℚ × ℚ)
deriving DecidableEq, Repr

/-- The JSON body of a 200 response of the handler. -/
structure ParseOutput where
  parameters : ParsedParameters
  crossSections : List (ℚ × ℚ)
deriving DecidableEq, Repr

/-- The comparator (a, b) => a.chainage − b.chainage of line 52. -/
def chainageLE (a b : ℚ × ℚ) : Prop := a.1 ≤ b.1

instance : DecidableRel chainageLE := fun a b =>
  inferInstanceAs (Decidable (a.1 ≤ b.1))

instance : IsTotal (ℚ × ℚ) chainageLE := ⟨fun a b => le_total a.1 b.1⟩

instance : IsTrans (ℚ × ℚ) chainageLE := ⟨fun _ _ _ => le_trans⟩

/-- Array.prototype.sort with the numeric chainage comparator: a stable
comparison sort, modelled as insertion sort. -/
def sortByChainage (l : List (ℚ × ℚ)) : List (ℚ × ℚ) :=
  List.insertionSort chainageLE l

/-- The parse handler of api/bridge/parse.ts (lines 27 to 54): the five
validation checks in source order, then the sorted cross-sections. The
handler performs no range check on the pair chainages. -/
def parseHandler (inp : RawInput) : Except String ParseOutput :=
  if inp.params.scale1 ≤ 0 ∨ inp.params.scale2 ≤ 0 then
    .error "Scale values must be positive"
  else if inp.params.xincr ≤ 0 ∨ inp.params.yincr ≤ 0 then
    .error "Increment values must be positive"
  else if inp.params.noch ≤ 0 then
    .error "Number of chainages must be a positive integer"
  else if inp.params.right ≤ inp.params.left then
    .error "Right chainage must be greater than left chainage"
  else if inp.params.toprl ≤ inp.params.datum then
    .error "Top level must be greater than datum level"
  else
    .ok { parameters := inp.params, crossSections := sortByChainage inp.pairs }

/-- The in-loop chainage range check of the express route in
unnamed/part_006 (lines 79 to 81): the route throws when some pair
chainage falls outside [left, right]. -/
def routeChainageOutOfRange (left right : ℚ) (pairs : List (ℚ × ℚ)) : Bool :=
  pairs.any (fun pr => decide (pr.1 < left ∨ right < pr.1))

end Parse

/-!
Definitions taken from the wording of the spec, for comparison with the
embedded code.
-/

namespace Spec

/-- Pier count as worded in the spec, section 4.2:
max(0, floor(bridgeLength / nominalSpan) − 1) with nominalSpan = 30. -/
def pierCount (p : BridgeParameters) : ℤ :=
  max 0 (⌊(p.right - p.left) / 30⌋ - 1)

/-- Pier chainages as worded in the spec, section 4.2: when pierCount > 0,
spacing = bridgeLength / (pierCount + 1) and pier i (1..pierCount) sits at
left + spacing·i. -/
def pierChainages (p : BridgeParameters) : List ℚ :=
  (List.range (pierCount p).toNat).map
    (fun (i : ℕ) => p.left + ((p.right - p.left) / ((pierCount p : ℚ) + 1)) * ((i : ℚ) + 1))

/-- The general rotation path as worded in the spec, section 4.1: rotate
(x, y) about the origin by the angle with sine s and cosine c, then apply
hpos and vpos to the rotated pair. -/
def generalRotationPath (g : DWG1.DWGGenerator) (s c x y : ℚ) : ℚ × ℚ :=
  (DWG1.hpos g (x * c - y * s), DWG1.vpos g (x * s + y * c))

end Spec

/-!
Concrete inputs used by the closed evaluations and witnesses.
-/

/-- The end-to-end ParameterSet of the spec, section 8. -/
def endToEndParams : BridgeParameters := ⟨100, 50, 0, 0, 20, 0, 100, 10, 2, 10⟩

/-- A single-span ParameterSet (length 10 < 30) for concrete command
evaluation. -/
def smallParams : BridgeParameters := ⟨100, 50, 0, 0, 20, 0, 10, 10, 2, 10⟩

/-- Options with the grid disabled and unit scale. -/
def smallOptions : DWG1.DWGExportOptions := ⟨1, false⟩

/-- Two off-grid cross-section vertices inside [0, 10]. -/
def smallCrossSection : List (ℚ × ℚ) := [(5, 1), (7, 2)]

/-- The generator state generateDWG builds for smallParams. -/
def smallGen : DWG1.DWGGenerator := DWG1.mkDWGGenerator smallParams 1

/-- Valid parameters for the parse endpoint. -/
def outOfRangeParams : Parse.ParsedParameters := ⟨1, 1, 0, 0, 20, 0, 100, 10, 2, 10⟩

/-- A lexed input whose first pair chainage 150 lies beyond right = 100. -/
def outOfRangeInput : Parse.RawInput := ⟨outOfRangeParams, [(150, 5), (10, 3)]⟩

/-- Valid parameters for the sortedness witness. -/
def unsortedParams : Parse.ParsedParameters := ⟨1, 1, 0, 0, 20, 0, 100, 10, 2, 10⟩

/-- A lexed input whose pairs appear out of chainage order. -/
def unsortedInput : Parse.RawInput := ⟨unsortedParams, [(30, 2), (10, 1), (20, 3)]⟩

/-- The response the handler returns for unsortedInput. -/
def unsortedOutput : Parse.ParseOutput := ⟨unsortedParams, [(10, 1), (20, 3), (30, 2)]⟩

/-!
Shared helper lemmas.
-/

/-- The dimension-annotator tick positions match the spec formula (the
divisor only differs by where the integer cast sits). -/
lemma dimPierXs_eq_spec (p : BridgeParameters) :
    DWG2.dimPierXs p = Spec.pierChainages p := by
  unfold DWG2.dimPierXs Spec.pierChainages DWG2.spacing DWG2.pierCountZ Spec.pierCount
  refine List.map_congr_left ?_
  intro i _
  push_cast
  ring

/-- The chainages of the part_005 elevation piers coincide with the
dimension-annotator tick positions. -/
lemma calc_chainages_eq_dim (p : BridgeParameters) :
    (Calc.elevationPiers p).map Calc.Pier.chainage = DWG2.dimPierXs p := by
  unfold Calc.elevationPiers DWG2.dimPierXs
  rw [List.map_map]
  rfl

/-- The last element of an append is the last element of its right part. -/
lemma getLast?_append_right {α : Type} (l₁ l₂ : List α) (a : α)
    (h : l₂.getLast? = some a) : (l₁ ++ l₂).getLast? = some a := by
  rw [List.getLast?_append, h]
  rfl

/-- The JS remainder of an exact integer multiple vanishes. -/
lemma jsRem_int_mul (k : ℤ) (y : ℚ) : jsRem ((k : ℚ) * y) y = 0 := by
  unfold jsRem ratTrunc
  rcases eq_or_ne y 0 with hy | hy
  · simp [hy]
  · rw [mul_div_assoc, div_self hy, mul_one]
    split <;> simp [mul_comm]

/-!
Claim theorems.
-/

/-- C1: for every bridge with bridgeLength = right − left and nominal span
length 30, the derived pier count equals max(0, floor(bridgeLength/30) − 1),
and when that count is positive the spacing equals
bridgeLength/(pierCount + 1) with pier i (1..pierCount) at chainage
left + spacing·i — both in the part_005 elevation renderer and in the
dimension annotator of the second dwg-generator variant. -/
theorem c1_pier_layout (p : BridgeParameters) :
    (Calc.elevationPiers p).map Calc.Pier.chainage = Spec.pierChainages p ∧
    DWG2.dimPierXs p = Spec.pierChainages p ∧
    (Calc.elevationPiers p).length = (max 0 (⌊(p.right - p.left) / 30⌋ - 1)).toNat := by
  refine ⟨?_, dimPierXs_eq_spec p, ?_⟩
  · rw [calc_chainages_eq_dim, dimPierXs_eq_spec]
  · unfold Calc.elevationPiers Calc.pierCountZ
    rw [List.length_map]
    exact List.length_range _

/-- C3: the claim asserts that with skew ≠ 0 every emitted point is first
rotated by the skew angle, so that line endpoints depend on the skew
parameter. The code never assigns the skewAngle field, which stays at the
initializer 0, so applySkew always takes the unrotated fast path and the
emitted endpoints are independent of the skew parameter. -/
theorem c3_skew_never_applied :
    (∀ (p : BridgeParameters) (sc x y : ℚ),
      DWG1.applySkew (DWG1.mkDWGGenerator p sc) x y =
        (DWG1.hpos (DWG1.mkDWGGenerator p sc) x,
         DWG1.vpos (DWG1.mkDWGGenerator p sc) y)) ∧
    (∀ (p : BridgeParameters) (sc x y s : ℚ),
      DWG1.drawLine (DWG1.mkDWGGenerator { p with skew := s } sc) x y x y "0" 7 0.25 =
        DWG1.drawLine (DWG1.mkDWGGenerator p sc) x y x y "0" 7 0.25) := by
  constructor
  · intro p sc x y
    simp [DWG1.applySkew, DWG1.mkDWGGenerator]
  · intro p sc x y s
    simp [DWG1.drawLine, DWG1.applySkew, DWG1.mkDWGGenerator, DWG1.hpos, DWG1.vpos]

/-- C5: the skew = 0 fast path of applySkew returns the same pair as the
general rotation path evaluated with sine 0 and cosine 1 (exactly, over
the rationals). -/
theorem c5_fast_path_eq_rotation (g : DWG1.DWGGenerator) (x y : ℚ)
    (h : g.skewAngle = 0) :
    DWG1.applySkew g x y = Spec.generalRotationPath g 0 1 x y := by
  rw [DWG1.applySkew, if_pos h]
  unfold Spec.generalRotationPath
  norm_num

/-- Witness for C5 at a concrete generator and point. -/
theorem c5_fast_path_eq_rotation_witness :
    DWG1.applySkew smallGen 3 4 = Spec.generalRotationPath smallGen 0 1 3 4 :=
  c5_fast_path_eq_rotation smallGen 3 4 rfl

/-- C6: the pier chainages of the elevation renderer drawBridge, of the
dimension annotator drawDimensions, and of the part_005 plan view are the
same list (same set, same order). -/
theorem c6_pier_chainages_agree (p : BridgeParameters) :
    DWG1.drawBridgePierChainages p = DWG2.dimPierXs p ∧
    (Calc.planPiers p).map Calc.PlanPier.chainage = DWG2.dimPierXs p := by
  have hz : DWG1.nspanZ p = DWG2.pierCountZ p + 1 := by
    unfold DWG1.nspanZ DWG2.pierCountZ
    omega
  have hpos0 : 0 ≤ DWG2.pierCountZ p := le_max_left 0 _
  constructor
  · unfold DWG1.drawBridgePierChainages DWG2.dimPierXs
    have hn : (DWG1.nspanZ p).toNat - 1 = (DWG2.pierCountZ p).toNat := by omega
    rw [hn]
    refine List.map_congr_left ?_
    intro i _
    unfold DWG1.spanLength DWG2.spacing
    rw [hz]
  · have hplan : (Calc.planPiers p).map Calc.PlanPier.chainage =
        (Calc.elevationPiers p).map Calc.Pier.chainage := by
      unfold Calc.planPiers
      rw [List.map_map]
      rfl
    rw [hplan, calc_chainages_eq_dim]

/-- C9: the coordinate transforms map the left chainage to abscissa 0 and
the datum level to ordinate 0, in both the DWGGenerator and the part_005
BridgeCalculator. -/
theorem c9_origin_mapping (p : BridgeParameters) (sc : ℚ) :
    DWG1.hpos (DWG1.mkDWGGenerator p sc) p.left = 0 ∧
    DWG1.vpos (DWG1.mkDWGGenerator p sc) p.datum = 0 ∧
    Calc.hpos p p.left = 0 ∧ Calc.vpos p p.datum = 0 := by
  simp [DWG1.hpos, DWG1.vpos, Calc.hpos, Calc.vpos, DWG1.mkDWGGenerator]

/-- C7: a cross-section vertex whose chainage offset from left has
absolute remainder against xincr at most the epsilon 0.01 receives no
chainage/level label markers, and a vertex whose absolute remainder
exceeds the epsilon receives both a chainage label and a level label — in
the addCrossSection pass of the DWGGenerator and in generateCrossSection
of part_005; an exact integer multiple of xincr is always suppressed. -/
theorem c7_grid_alignment_labels (g : DWG1.DWGGenerator)
    (p : BridgeParameters) (pt : ℚ × ℚ) :
    (|jsRem (pt.1 - g.parameters.left) g.parameters.xincr| ≤ 1 / 100 →
      DWG1.csMarkerCmds g pt = []) ∧
    (1 / 100 < |jsRem (pt.1 - g.parameters.left) g.parameters.xincr| →
      DWG1.csMarkerCmds g pt =
        DWG1.drawText g (pt.1 + 0.5) (pt.2 - 1) (formatChainage pt.1)
          1.8 "DIMENSIONS" 7 90 ++
        DWG1.drawText g (pt.1 + 0.5) (pt.2 - 2) (toFixedN 3 pt.2)
          1.8 "DIMENSIONS" 7 90) ∧
    (∀ k : ℤ, pt.1 - g.parameters.left = (k : ℚ) * g.parameters.xincr →
      DWG1.csMarkerCmds g pt = []) ∧
    (|jsRem (pt.1 - p.left) p.xincr| ≤ 1 / 100 →
      Calc.csMarkers005 p pt = []) ∧
    (1 / 100 < |jsRem (pt.1 - p.left) p.xincr| →
      Calc.csMarkers005 p pt =
        [⟨(Calc.hpos p pt.1 + 5, Calc.vpos p pt.2 - 10),
          formatChainage pt.1, toFixedN 3 pt.2⟩]) ∧
    (∀ k : ℤ, pt.1 - p.left = (k : ℚ) * p.xincr →
      Calc.csMarkers005 p pt = []) := by
  refine ⟨?_, ?_, ?_, ?_, ?_, ?_⟩
  · intro h
    unfold DWG1.csMarkerCmds
    rw [if_neg (not_lt.mpr h)]
  · intro h
    unfold DWG1.csMarkerCmds
    rw [if_pos h]
  · intro k hk
    unfold DWG1.csMarkerCmds
    rw [hk, jsRem_int_mul]
    norm_num
  · intro h
    unfold Calc.csMarkers005
    rw [if_neg (not_lt.mpr h)]
  · intro h
    unfold Calc.csMarkers005
    rw [if_pos h]
  · intro k hk
    unfold Calc.csMarkers005
    rw [hk, jsRem_int_mul]
    norm_num

/-- Witness for C7: the vertex at chainage 20 (offset 20, an exact grid
multiple of xincr = 10) gets no markers; the vertex at chainage 15
(remainder 5) gets both labels. -/
theorem c7_grid_alignment_labels_witness :
    DWG1.csMarkerCmds smallGen (20, 5) = [] ∧
    Calc.csMarkers005 smallParams (15, 5) =
      [⟨(Calc.hpos smallParams 15 + 5, Calc.vpos smallParams 5 - 10),
        formatChainage 15, toFixedN 3 5⟩] := by
  constructor
  · exact (c7_grid_alignment_labels smallGen smallParams (20, 5)).1
      (by norm_num [smallGen, smallParams, DWG1.mkDWGGenerator, jsRem, ratTrunc])
  · exact (c7_grid_alignment_labels smallGen smallParams (15, 5)).2.2.2.2.1
      (by norm_num [smallParams, jsRem, ratTrunc])

/-- C2: the claim lists the cross-section range check among the validation
failures of the parse endpoint, but api/bridge/parse.ts performs no such
check: the input with pair chainage 150 beyond right = 100 is accepted
with a 200 response carrying that chainage, while the express route of
unnamed/part_006 (whose range check is also embedded) rejects it. -/
theorem c2_parse_accepts_out_of_range :
    Parse.parseHandler outOfRangeInput =
      Except.ok ⟨outOfRangeParams, [(10, 3), (150, 5)]⟩ ∧
    (150 : ℚ) ∈ (Parse.ParseOutput.crossSections
      ⟨outOfRangeParams, [(10, 3), (150, 5)]⟩).map Prod.fst ∧
    outOfRangeParams.right < 150 ∧
    Parse.routeChainageOutOfRange outOfRangeParams.left outOfRangeParams.right
      outOfRangeInput.pairs = true := by
  refine ⟨?_, by norm_num [outOfRangeParams], by norm_num [outOfRangeParams], ?_⟩
  · unfold Parse.parseHandler outOfRangeInput outOfRangeParams
    norm_num [Parse.sortByChainage, List.insertionSort, List.orderedInsert,
      Parse.chainageLE]
  · unfold Parse.routeChainageOutOfRange outOfRangeInput outOfRangeParams
    norm_num

/-- C10: every input the parse handler accepts comes back with its
crossSections list sorted in non-decreasing chainage order. -/
theorem c10_cross_sections_sorted (inp : Parse.RawInput)
    (out : Parse.ParseOutput) (h : Parse.parseHandler inp = Except.ok out) :
    out.crossSections.Sorted Parse.chainageLE := by
  unfold Parse.parseHandler at h
  split_ifs at h
  any_goals cases h
  exact List.sorted_insertionSort Parse.chainageLE inp.pairs

/-- Witness for C10: the handler accepts unsortedInput, whose pairs appear
out of chainage order, and the returned list is sorted. -/
theorem c10_cross_sections_sorted_witness :
    unsortedOutput.crossSections.Sorted Parse.chainageLE :=
  c10_cross_sections_sorted unsortedInput unsortedOutput
    (by
      unfold Parse.parseHandler unsortedInput unsortedOutput unsortedParams
      norm_num [Parse.sortByChainage, List.insertionSort, List.orderedInsert,
        Parse.chainageLE])

/-- C8: for the end-to-end ParameterSet of the spec, the generator derives
bridgeLength = 100 and pierCount = 2, places the piers at chainages 100/3
and 200/3 (both in drawBridge and in the dimension annotator), puts the
deck at level toprl − 1.5 = 18.5, and emits the overall-length label
"L = 100 m". -/
theorem c8_end_to_end :
    endToEndParams.right - endToEndParams.left = 100 ∧
    DWG2.pierCountZ endToEndParams = 2 ∧
    DWG2.dimPierXs endToEndParams = [100 / 3, 200 / 3] ∧
    DWG1.drawBridgePierChainages endToEndParams = [100 / 3, 200 / 3] ∧
    DWG1.deckLevel endToEndParams = 18.5 ∧
    DWG2.overallLengthLabel endToEndParams = "L = 100 m" := by
  have hfields : endToEndParams.right - endToEndParams.left = 100 := by
    norm_num [endToEndParams]
  have hfloor : (⌊(100 : ℚ) / 30⌋ : ℤ) = 3 := by norm_num
  have hc : DWG2.pierCountZ endToEndParams = 2 := by
    unfold DWG2.pierCountZ
    rw [hfields, hfloor]
    decide
  have hn : DWG1.nspanZ endToEndParams = 3 := by
    unfold DWG1.nspanZ
    rw [hfields, hfloor]
    decide
  have hs : DWG2.spacing endToEndParams = 100 / 3 := by
    unfold DWG2.spacing
    rw [hc, hfields]
    norm_num
  have hsl : DWG1.spanLength endToEndParams = 100 / 3 := by
    unfold DWG1.spanLength
    rw [hn, hfields]
    norm_num
  refine ⟨hfields, hc, ?_, ?_, by norm_num [DWG1.deckLevel, endToEndParams], ?_⟩
  · unfold DWG2.dimPierXs
    rw [hc, hs, show ((2 : ℤ).toNat) = 2 from rfl]
    norm_num [List.range_succ, endToEndParams]
  · unfold DWG1.drawBridgePierChainages
    rw [hn, hsl, show ((3 : ℤ).toNat - 1 : ℕ) = 2 from rfl]
    norm_num [List.range_succ, endToEndParams]
  · unfold DWG2.overallLengthLabel
    rw [hfields]
    rw [toFixedN, show jsRound ((100 : ℚ) * (10 : ℚ) ^ 0) = 100 from by
      norm_num [jsRound]]
    rfl

/-- C4: the claim asserts the final command sequence always begins with
the section-start marker and ends with the terminator, including when
cross-section overlay commands are supplied. The start marker holds, and
generateDWG alone does end with EOF, but generateBridgeDWG pushes the
overlay commands after the already emitted terminator, so the final
sequence ends with the rotation token of the last overlay label instead
of EOF. -/
theorem c4_overlay_after_terminator :
    (DWG1.generateBridgeDWG smallParams smallOptions smallCrossSection).take 4 =
      ["0", "SECTION", "2", "ENTITIES"] ∧
    (DWG1.generateDWG smallParams smallOptions).getLast? = some "EOF" ∧
    (DWG1.generateBridgeDWG smallParams smallOptions smallCrossSection).getLast? =
      some "90.00" ∧
    "90.00" ≠ "EOF" := by
  have hsplit : DWG1.generateBridgeDWG smallParams smallOptions smallCrossSection =
      DWG1.generateDWG smallParams smallOptions ++
      DWG1.addCrossSection (DWG1.mkDWGGenerator smallParams 1) smallCrossSection := by
    unfold DWG1.generateBridgeDWG
    rfl
  have hm7 : DWG1.csMarkerCmds (DWG1.mkDWGGenerator smallParams 1) (7, 2) =
      DWG1.drawText (DWG1.mkDWGGenerator smallParams 1) (7 + 0.5) (2 - 1)
        (formatChainage 7) 1.8 "DIMENSIONS" 7 90 ++
      DWG1.drawText (DWG1.mkDWGGenerator smallParams 1) (7 + 0.5) (2 - 2)
        (toFixedN 3 2) 1.8 "DIMENSIONS" 7 90 := by
    unfold DWG1.csMarkerCmds
    rw [if_pos (by norm_num [DWG1.mkDWGGenerator, smallParams, jsRem, ratTrunc])]
  have haddLast :
      (DWG1.addCrossSection (DWG1.mkDWGGenerator smallParams 1)
        smallCrossSection).getLast? =
      some (toFixedN 2 (90 + smallParams.skew)) := by
    unfold DWG1.addCrossSection
    rw [if_neg (by norm_num [smallCrossSection])]
    apply getLast?_append_right
    show (DWG1.csMarkerCmds (DWG1.mkDWGGenerator smallParams 1) (5, 1) ++
      (DWG1.csMarkerCmds (DWG1.mkDWGGenerator smallParams 1) (7, 2) ++
        [])).getLast? = _
    apply getLast?_append_right
    rw [List.append_nil, hm7]
    apply getLast?_append_right
    rfl
  have h90 : toFixedN 2 (90 + smallParams.skew) = "90.00" := by
    rw [toFixedN, show jsRound ((90 + smallParams.skew) * (10 : ℚ) ^ 2) = 9000 from by
      norm_num [jsRound, smallParams]]
    rfl
  refine ⟨?_, ?_, ?_, by decide⟩
  · rw [hsplit]
    unfold DWG1.generateDWG
    rfl
  · unfold DWG1.generateDWG
    apply getLast?_append_right
    rfl
  · rw [hsplit]
    exact (getLast?_append_right _ _ _ haddLast).trans (congrArg some h90)

end BridgeGAD
